import Mathlib

/-!
Shallow embedding of `src/app.py`, a Flask + MongoDB template/task manager.

Modelling conventions:
- MongoDB ObjectId values are modelled by their canonical 24-character hex
  string rendering; `ObjectId.parse` validates the format and fails exactly
  where the Python constructor `ObjectId(s)` raises `InvalidId`.
- `datetime.utcnow()` is modelled by a `now : Nat` parameter (the timestamp
  value as stored by the database, millisecond precision); it is threaded
  into each handler that reads the clock.
- The JWT layer (`flask_jwt_extended`) resolves the bearer token before a
  handler body runs; handlers therefore receive the resolved identity
  `current_user : String` directly, and `create_access_token` produces a
  token value carrying the identity as its subject claim.
- The password primitives from `werkzeug.security` are an external trusted
  library; they are modelled by a deterministic abstraction that keeps their
  contract: the hash output is never the plaintext, and verification of a
  candidate against a stored hash succeeds exactly when the candidate
  re-hashes to the stored value.
- A MongoDB collection is a `List` of documents; `find_one` is `List.find?`,
  `update_one` and `delete_one` act on the first matching document and
  report matched/modified resp. deleted counts, with `modified_count`
  counting a document only when the applied `$set` actually changed it.
-/

namespace App

/-- A 24-character hex string, the string form accepted by `ObjectId(...)`. -/
def isValidObjectId (s : String) : Bool :=
  s.length == 24 && s.data.all fun c =>
    c.isDigit || ('a' ≤ c && c ≤ 'f') || ('A' ≤ c && c ≤ 'F')

/-- Parsing an id string as the Python `ObjectId` constructor does: the
canonical hex string on success, failure exactly on invalid format. -/
def ObjectId.parse (s : String) : Option String :=
  if isValidObjectId s then some s else none

/-- The `str(e)` text of the `bson.errors.InvalidId` raised by `ObjectId(s)`
on a malformed input. -/
def invalidOidMessage (s : String) : String :=
  "'" ++ s ++ "' is not a valid ObjectId, it must be a 12-byte input or a 24-character hex string"

/-- Modelled external library (`werkzeug.security.generate_password_hash`):
a salted adaptive hash returning a `method$salt$digest` formatted opaque
string; modelled deterministically, keeping the property that the output is
never the plaintext itself. -/
def generate_password_hash (password : String) : String :=
  "pbkdf2:sha256$" ++ password

/-- Modelled external library (`werkzeug.security.check_password_hash`):
verification succeeds exactly when the candidate hashes to the stored
value. -/
def check_password_hash (pwhash password : String) : Bool :=
  pwhash == generate_password_hash password

/-- A JWT access token; the only claim the code uses is the subject. -/
structure Token where
  sub : String
  deriving DecidableEq, Repr

/-- `create_access_token(identity=...)`: the identity becomes the subject
claim of the issued token. -/
def create_access_token (identity : String) : Token :=
  ⟨identity⟩

/-- A document of the `users` collection (`_id` in canonical string form). -/
structure UserDoc where
  _id : String
  first_name : String
  last_name : String
  email : String
  password : String
  created_at : Nat
  deriving DecidableEq, Repr

/-- A document of the `templates` collection. -/
structure TemplateDoc where
  _id : String
  user_id : String
  template_name : String
  subject : String
  body : String
  created_at : Nat
  updated_at : Option Nat
  deriving DecidableEq, Repr

/-- A document of the `tasks` collection. `assigned_user` is stored as the
raw string supplied by the caller, `assigned_by` as the JWT identity. -/
structure TaskDoc where
  _id : String
  assigned_by : String
  assigned_user : String
  task_date : String
  task_time : String
  task_msg : String
  is_completed : Int
  created_at : Nat
  updated_at : Option Nat
  deriving DecidableEq, Repr

/-- The three collections of the `template_management` database. -/
structure DB where
  users : List UserDoc
  templates : List TemplateDoc
  tasks : List TaskDoc
  deriving DecidableEq, Repr

/-- `collection.update_one(filter, set)`: rewrites the first document
matching `p` with `f`, returning the new collection, the matched count and
the modified count (zero when the write changed nothing). -/
def updateOne {α : Type} [DecidableEq α] (p : α → Bool) (f : α → α) :
    List α → List α × Nat × Nat
  | [] => ([], 0, 0)
  | x :: xs =>
    if p x then
      (f x :: xs, 1, if f x = x then 0 else 1)
    else
      let r := updateOne p f xs
      (x :: r.1, r.2.1, r.2.2)

/-- `collection.delete_one(filter)`: removes the first document matching
`p`, returning the new collection and the deleted count. -/
def deleteOne {α : Type} (p : α → Bool) : List α → List α × Nat
  | [] => ([], 0)
  | x :: xs =>
    if p x then (xs, 1)
    else
      let r := deleteOne p xs
      (x :: r.1, r.2)

/-- Body of `POST /register`; each field is absent or present. -/
structure RegisterData where
  first_name : Option String
  last_name : Option String
  email : Option String
  password : Option String
  deriving Repr

/-- The `register` handler (`src/app.py` lines 43 to 71): validates the four
required fields, rejects an already registered email found by a prior
lookup, otherwise inserts the user with a hashed password. Returns the
status code and message together with the resulting database; `newId` is
the store-generated id of the inserted document. -/
def register (db : DB) (data : RegisterData) (now : Nat) (newId : String) :
    (Nat × String) × DB :=
  match data.first_name, data.last_name, data.email, data.password with
  | some fn, some ln, some em, some pw =>
    if (db.users.find? fun u => u.email == em).isSome then
      ((400, "Email already registered"), db)
    else
      let user : UserDoc :=
        { _id := newId, first_name := fn, last_name := ln, email := em
          password := generate_password_hash pw, created_at := now }
      ((201, "User registered successfully"), { db with users := db.users ++ [user] })
  | _, _, _, _ => ((400, "Missing required fields"), db)

/-- Body of `POST /login`. -/
structure LoginData where
  email : Option String
  password : Option String
  deriving Repr

/-- The `login` handler (`src/app.py` lines 74 to 96): looks the user up by
email and verifies the password against the stored hash; on success issues
a token whose subject is the user id, otherwise answers 401 with one fixed
message for both failure causes. -/
def login (db : DB) (data : LoginData) : Nat × String × Option Token :=
  match data.email, data.password with
  | some em, some pw =>
    match db.users.find? fun u => u.email == em with
    | some user =>
      if check_password_hash user.password pw then
        (200, "Login successful", some (create_access_token user._id))
      else
        (401, "Invalid credentials", none)
    | none => (401, "Invalid credentials", none)
  | _, _ => (400, "Missing email or password", none)

/-- The HTTP method of a request to an `/x/:id` route. -/
inductive Method
  | GET
  | PUT
  | DELETE
  deriving DecidableEq, Repr

/-- Body of `PUT /template/:id`. -/
structure TplPutData where
  template_name : Option String
  subject : Option String
  body : Option String
  deriving Repr

/-- Outcome of `template_operations`: a serialized document for a
successful GET, or a status code with a message. -/
inductive TplOpResult
  | doc (t : TemplateDoc)
  | msg (status : Nat) (message : String)
  deriving DecidableEq, Repr

/-- The `template_operations` handler (`src/app.py` lines 149 to 216):
GET, PUT and DELETE on `/template/:id`, each filtered by
`_id = template_id` together with `user_id = current_user`. PUT performs a
`$set` of the three fields plus `updated_at = now` through `update_one` and
answers 404 when `modified_count` is zero; DELETE answers 404 when
`deleted_count` is zero. `data` is the parsed JSON body (`none` when
absent), only consulted by PUT. -/
def template_operations (db : DB) (current_user template_id : String)
    (method : Method) (data : Option TplPutData) (now : Nat) :
    TplOpResult × DB :=
  match ObjectId.parse template_id with
  | none => (.msg 400 "Invalid template ID format", db)
  | some oid =>
    match method with
    | .GET =>
      match db.templates.find? fun t => t._id == oid && t.user_id == current_user with
      | none => (.msg 404 "Template not found", db)
      | some t => (.doc t, db)
    | .PUT =>
      match data with
      | none => (.msg 400 "No input data provided", db)
      | some d =>
        match d.template_name, d.subject, d.body with
        | some tn, some sj, some bd =>
          let r := updateOne
            (fun t => t._id == oid && t.user_id == current_user)
            (fun t => { t with template_name := tn, subject := sj, body := bd,
                               updated_at := some now })
            db.templates
          if r.2.2 == 0 then
            (.msg 404 "Template not found", { db with templates := r.1 })
          else
            (.msg 200 "Template updated successfully", { db with templates := r.1 })
        | _, _, _ => (.msg 400 "Missing required fields", db)
    | .DELETE =>
      let r := deleteOne
        (fun t => t._id == oid && t.user_id == current_user) db.templates
      if r.2 == 0 then
        (.msg 404 "Template not found", { db with templates := r.1 })
      else
        (.msg 200 "Template deleted successfully", { db with templates := r.1 })

/-- Body of `POST /task`. The handler reads only the four required keys; a
caller may also supply `is_completed` or `assigned_by`, which the code
never consults. -/
structure TaskCreateData where
  assigned_user : Option String
  task_date : Option String
  task_time : Option String
  task_msg : Option String
  is_completed : Option Int
  assigned_by : Option String
  deriving Repr

/-- The `create_task` handler (`src/app.py` lines 221 to 253): validates
the four required fields, resolves `ObjectId(data[assigned_user])` (a
malformed value raises, caught by the catch-all `except` as a 500 carrying
the raw error text), answers 404 when no user has that id, otherwise
inserts the task with `assigned_by = current_user` and `is_completed = 0`.
Returns status, message, optional created id, and the new database. -/
def create_task (db : DB) (current_user : String) (data : TaskCreateData)
    (now : Nat) (newId : String) : (Nat × String × Option String) × DB :=
  match data.assigned_user, data.task_date, data.task_time, data.task_msg with
  | some au, some dt, some tm, some ms =>
    match ObjectId.parse au with
    | none => ((500, invalidOidMessage au, none), db)
    | some auOid =>
      match db.users.find? fun u => u._id == auOid with
      | none => ((404, "Assigned user not found", none), db)
      | some _ =>
        let task : TaskDoc :=
          { _id := newId, assigned_by := current_user, assigned_user := au
            task_date := dt, task_time := tm, task_msg := ms
            is_completed := 0, created_at := now, updated_at := none }
        ((201, "Task created", some newId), { db with tasks := db.tasks ++ [task] })
  | _, _, _, _ => ((400, "Missing required fields", none), db)

/-- Body of `PUT /task/:id`. -/
structure TaskPutData where
  is_completed : Option Int
  deriving Repr

/-- The `str(e)` text of the TypeError raised by subscripting the `None`
returned by a failed user lookup during name enrichment. -/
def noneSubscriptMessage : String :=
  "'NoneType' object is not subscriptable"

/-- Outcome of `task_operations`: an enriched document for a successful
GET, a message plus notification string for a successful PUT, or a status
code with a message. -/
inductive TaskOpResult
  | doc (t : TaskDoc) (assigned_by_name assigned_to_name : String)
  | notif (status : Nat) (message : String) (notification : String)
  | msg (status : Nat) (message : String)
  deriving DecidableEq, Repr

/-- The display name enrichment `f"{u[first_name]} {u[last_name]}"`. -/
def displayName (u : UserDoc) : String :=
  u.first_name ++ " " ++ u.last_name

/-- The `task_operations` handler (`src/app.py` lines 281 to 359): GET, PUT
and DELETE on `/task/:id`, each filtered by `_id = task_id` together with
`assigned_user = current_user`. PUT first re-reads the task (404 when
absent), then performs `update_one` with a `$set` of `is_completed` plus
`updated_at = now` (404 when `modified_count` is zero), then resolves both
referenced users to build the notification string; a failure of that
enrichment is caught by the catch-all `except` as a 500 after the write has
already been applied. -/
def task_operations (db : DB) (current_user task_id : String)
    (method : Method) (data : Option TaskPutData) (now : Nat) :
    TaskOpResult × DB :=
  match ObjectId.parse task_id with
  | none => (.msg 400 "Invalid task ID format", db)
  | some oid =>
    match method with
    | .GET =>
      match db.tasks.find? fun t => t._id == oid && t.assigned_user == current_user with
      | none => (.msg 404 "Task not found", db)
      | some task =>
        match ObjectId.parse task.assigned_by, ObjectId.parse task.assigned_user with
        | some byOid, some toOid =>
          match db.users.find? (fun u => u._id == byOid),
                db.users.find? (fun u => u._id == toOid) with
          | some byUser, some toUser =>
            (.doc task (displayName byUser) (displayName toUser), db)
          | _, _ => (.msg 500 noneSubscriptMessage, db)
        | none, _ => (.msg 500 (invalidOidMessage task.assigned_by), db)
        | _, none => (.msg 500 (invalidOidMessage task.assigned_user), db)
    | .PUT =>
      match data with
      | none => (.msg 400 "No input data provided", db)
      | some d =>
        match d.is_completed with
        | none => (.msg 400 "Missing required fields", db)
        | some ic =>
          match db.tasks.find? fun t => t._id == oid && t.assigned_user == current_user with
          | none => (.msg 404 "Task not found", db)
          | some task =>
            let r := updateOne
              (fun t => t._id == oid && t.assigned_user == current_user)
              (fun t => { t with is_completed := ic, updated_at := some now })
              db.tasks
            let db2 : DB := { db with tasks := r.1 }
            if r.2.2 == 0 then
              (.msg 404 "Task not found", db2)
            else
              match ObjectId.parse task.assigned_by, ObjectId.parse task.assigned_user with
              | some byOid, some toOid =>
                match db2.users.find? (fun u => u._id == byOid),
                      db2.users.find? (fun u => u._id == toOid) with
                | some _, some toUser =>
                  (.notif 200 "Task updated successfully"
                    ("Task completed by " ++ displayName toUser), db2)
                | _, _ => (.msg 500 noneSubscriptMessage, db2)
              | none, _ => (.msg 500 (invalidOidMessage task.assigned_by), db2)
              | _, none => (.msg 500 (invalidOidMessage task.assigned_user), db2)
    | .DELETE =>
      match db.tasks.find? fun t => t._id == oid && t.assigned_user == current_user with
      | none => (.msg 404 "Task not found", db)
      | some _ =>
        let r := deleteOne
          (fun t => t._id == oid && t.assigned_user == current_user) db.tasks
        if r.2 == 0 then
          (.msg 404 "Task not found", { db with tasks := r.1 })
        else
          (.msg 200 "Task deleted successfully", { db with tasks := r.1 })

/-- Outcome of `get_users`: the serialized user list, or an error. -/
inductive TeamResult
  | users (us : List UserDoc)
  | msg (status : Nat) (message : String)
  deriving DecidableEq, Repr

/-- The `get_users` handler for `GET /team` (`src/app.py` lines 364 to
372): returns every user document whose `_id` differs from
`ObjectId(current_user)`, serialized whole (only the id is stringified; all
other stored fields, the password hash included, are returned verbatim). A
malformed identity raises and is caught as a 500. -/
def get_users (db : DB) (current_user : String) : TeamResult :=
  match ObjectId.parse current_user with
  | none => .msg 500 (invalidOidMessage current_user)
  | some oid => .users (db.users.filter fun u => u._id != oid)

/-! Concrete fixtures: two registered users, one template owned by the
first, one task assigned to the second, used to instantiate the theorems
below on explicit inputs. -/

def oidA : String := "aaaaaaaaaaaaaaaaaaaaaaaa"

def oidB : String := "bbbbbbbbbbbbbbbbbbbbbbbb"

def oidT : String := "cccccccccccccccccccccccc"

def oidK : String := "dddddddddddddddddddddddd"

def userA : UserDoc :=
  { _id := oidA, first_name := "Ann", last_name := "Ames"
    email := "a@x", password := generate_password_hash "pw", created_at := 0 }

def userB : UserDoc :=
  { _id := oidB, first_name := "Bob", last_name := "Blake"
    email := "b@x", password := generate_password_hash "pw2", created_at := 0 }

def tplT : TemplateDoc :=
  { _id := oidT, user_id := oidA, template_name := "n"
    subject := "s", body := "b", created_at := 0, updated_at := none }

def taskK : TaskDoc :=
  { _id := oidK, assigned_by := oidA, assigned_user := oidB
    task_date := "2024-01-01", task_time := "10:00", task_msg := "m"
    is_completed := 1, created_at := 0, updated_at := some 0 }

def dbW : DB := { users := [userA, userB], templates := [tplT], tasks := [taskK] }

/-! Helper lemmas characterizing `List.find?`, `updateOne` and `deleteOne`
on a collection split around its first matching document. -/

theorem find?_eq_none_of_all {α : Type} (p : α → Bool) (l : List α)
    (h : ∀ z ∈ l, p z = false) : l.find? p = none := by
  induction l with
  | nil => rfl
  | cons a l ih =>
    have ha := h a (List.mem_cons_self a l)
    rw [List.find?_cons, ha]
    exact ih fun z hz => h z (List.mem_cons_of_mem a hz)

theorem find?_of_decomp {α : Type} (p : α → Bool) (pre post : List α) (y : α)
    (hpre : ∀ z ∈ pre, p z = false) (hy : p y = true) :
    (pre ++ y :: post).find? p = some y := by
  induction pre with
  | nil =>
    rw [List.nil_append, List.find?_cons, hy]
  | cons a l ih =>
    have ha := hpre a (List.mem_cons_self a l)
    rw [List.cons_append, List.find?_cons, ha]
    exact ih fun z hz => hpre z (List.mem_cons_of_mem a hz)

theorem updateOne_of_all {α : Type} [DecidableEq α] (p : α → Bool) (f : α → α)
    (l : List α) (h : ∀ z ∈ l, p z = false) : updateOne p f l = (l, 0, 0) := by
  induction l with
  | nil => rfl
  | cons a l ih =>
    have ha := h a (List.mem_cons_self a l)
    have ih2 := ih fun z hz => h z (List.mem_cons_of_mem a hz)
    simp [updateOne, ha, ih2]

theorem updateOne_of_decomp {α : Type} [DecidableEq α] (p : α → Bool) (f : α → α)
    (pre post : List α) (y : α)
    (hpre : ∀ z ∈ pre, p z = false) (hy : p y = true) :
    updateOne p f (pre ++ y :: post) =
      (pre ++ f y :: post, 1, if f y = y then 0 else 1) := by
  induction pre with
  | nil =>
    simp [updateOne, hy]
  | cons a l ih =>
    have ha := hpre a (List.mem_cons_self a l)
    have ih2 := ih fun z hz => hpre z (List.mem_cons_of_mem a hz)
    simp [updateOne, ha, ih2]

theorem deleteOne_of_all {α : Type} (p : α → Bool) (l : List α)
    (h : ∀ z ∈ l, p z = false) : deleteOne p l = (l, 0) := by
  induction l with
  | nil => rfl
  | cons a l ih =>
    have ha := h a (List.mem_cons_self a l)
    have ih2 := ih fun z hz => h z (List.mem_cons_of_mem a hz)
    simp [deleteOne, ha, ih2]

theorem deleteOne_of_decomp {α : Type} (p : α → Bool)
    (pre post : List α) (y : α)
    (hpre : ∀ z ∈ pre, p z = false) (hy : p y = true) :
    deleteOne p (pre ++ y :: post) = (pre ++ post, 1) := by
  induction pre with
  | nil =>
    simp [deleteOne, hy]
  | cons a l ih =>
    have ha := hpre a (List.mem_cons_self a l)
    have ih2 := ih fun z hz => hpre z (List.mem_cons_of_mem a hz)
    simp [deleteOne, ha, ih2]

/-- C3: a login whose email matches no stored user, or whose password does
not verify against the stored hash of the matched user, answers 401 with
the one literal message "Invalid credentials" in both cases; a login whose
email resolves to a user and whose password verifies answers 200 with a
token whose subject claim is that user id. -/
theorem login_auth_behavior (db : DB) (em pw : String) :
    ((∀ u ∈ db.users, u.email ≠ em) →
      login db ⟨some em, some pw⟩ = (401, "Invalid credentials", none))
    ∧ (∀ u, db.users.find? (fun v => v.email == em) = some u →
        (check_password_hash u.password pw = false →
          login db ⟨some em, some pw⟩ = (401, "Invalid credentials", none))
        ∧ (check_password_hash u.password pw = true →
          login db ⟨some em, some pw⟩ =
            (200, "Login successful", some (create_access_token u._id))
          ∧ (create_access_token u._id).sub = u._id)) := by
  refine ⟨fun h => ?_, fun u hu => ⟨fun hc => ?_, fun hc => ⟨?_, rfl⟩⟩⟩
  · have hn : (db.users.find? fun v => v.email == em) = none :=
      find?_eq_none_of_all _ _ fun z hz => by simpa using h z hz
    simp [login, hn]
  · simp [login, hu, hc]
  · simp [login, hu, hc]

/-- Instantiation of `login_auth_behavior`: in the fixture store, an
unknown email is rejected with 401 and the known email with the matching
password yields a token carrying the id of `userA`. -/
theorem login_auth_behavior_witness :
    login dbW ⟨some "z@q", some "pw"⟩ = (401, "Invalid credentials", none)
    ∧ login dbW ⟨some "a@x", some "bad"⟩ = (401, "Invalid credentials", none)
    ∧ login dbW ⟨some "a@x", some "pw"⟩ =
        (200, "Login successful", some (create_access_token userA._id)) :=
  ⟨(login_auth_behavior dbW "z@q" "pw").1 (by decide),
   (((login_auth_behavior dbW "a@x" "bad").2 userA (by decide)).1 (by decide)),
   ((((login_auth_behavior dbW "a@x" "pw").2 userA (by decide)).2 (by decide)).1)⟩

/-- C4: an authenticated task creation with all four required fields and a
well-formed `assigned_user` id matching no stored user answers 404 and
leaves the database, the tasks collection included, unchanged. -/
theorem create_task_unknown_assignee (db : DB) (cu : String)
    (d : TaskCreateData) (au dt tm ms : String) (now : Nat) (newId : String)
    (hau : d.assigned_user = some au) (hdt : d.task_date = some dt)
    (htm : d.task_time = some tm) (hms : d.task_msg = some ms)
    (hv : isValidObjectId au = true)
    (hno : ∀ u ∈ db.users, u._id ≠ au) :
    create_task db cu d now newId = ((404, "Assigned user not found", none), db) := by
  have hn : (db.users.find? fun u => u._id == au) = none :=
    find?_eq_none_of_all _ _ fun z hz => by simpa using hno z hz
  obtain ⟨f1, f2, f3, f4, f5, f6⟩ := d
  cases hau; cases hdt; cases htm; cases hms
  simp [create_task, ObjectId.parse, hv, hn]

/-- Instantiation of `create_task_unknown_assignee`: assigning to the
well-formed but unregistered id `oidT` fails with 404 and does not change
the fixture store. -/
theorem create_task_unknown_assignee_witness :
    create_task dbW oidA
      ⟨some oidT, some "2024-01-01", some "10:00", some "m", none, none⟩ 7 oidK =
      ((404, "Assigned user not found", none), dbW) :=
  create_task_unknown_assignee dbW oidA _ oidT "2024-01-01" "10:00" "m" 7 oidK
    rfl rfl rfl rfl (by decide) (by decide)

/-- C5: a registration with all fields present whose email is already
stored answers 400 and inserts nothing; with a fresh email it answers 201
and appends exactly one user document whose password field is the hash of
the submitted password, and that stored hash is never the plaintext. -/
theorem register_email_uniqueness (db : DB) (fn ln em pw : String)
    (now : Nat) (newId : String) :
    ((∃ u ∈ db.users, u.email = em) →
      register db ⟨some fn, some ln, some em, some pw⟩ now newId =
        ((400, "Email already registered"), db))
    ∧ ((∀ u ∈ db.users, u.email ≠ em) →
      register db ⟨some fn, some ln, some em, some pw⟩ now newId =
        ((201, "User registered successfully"),
         { db with users := db.users ++
            [{ _id := newId, first_name := fn, last_name := ln, email := em
               password := generate_password_hash pw, created_at := now }] })
      ∧ generate_password_hash pw ≠ pw) := by
  constructor
  · rintro ⟨u, hu, hue⟩
    have hs : (db.users.find? fun v => v.email == em).isSome := by
      rw [List.find?_isSome]
      exact ⟨u, hu, by simp [hue]⟩
    simp [register, hs]
  · intro h
    have hn : (db.users.find? fun v => v.email == em) = none :=
      find?_eq_none_of_all _ _ fun z hz => by simpa using h z hz
    refine ⟨by simp [register, hn], fun hcontra => ?_⟩
    have hlen := congrArg String.length hcontra
    rw [generate_password_hash, String.length_append] at hlen
    have h14 : ("pbkdf2:sha256$" : String).length = 14 := rfl
    rw [h14] at hlen
    omega

/-- Instantiation of `register_email_uniqueness`: registering the already
stored email of `userA` is refused, and registering a fresh email appends
the hashed-password document. -/
theorem register_email_uniqueness_witness :
    register dbW ⟨some "Cy", some "Cole", some "a@x", some "s3cret"⟩ 9 oidT =
      ((400, "Email already registered"), dbW)
    ∧ register dbW ⟨some "Cy", some "Cole", some "c@x", some "s3cret"⟩ 9 oidT =
      ((201, "User registered successfully"),
       { dbW with users := dbW.users ++
          [{ _id := oidT, first_name := "Cy", last_name := "Cole", email := "c@x"
             password := generate_password_hash "s3cret", created_at := 9 }] })
    ∧ generate_password_hash "s3cret" ≠ "s3cret" :=
  ⟨(register_email_uniqueness dbW "Cy" "Cole" "a@x" "s3cret" 9 oidT).1
      ⟨userA, by decide, rfl⟩,
   ((register_email_uniqueness dbW "Cy" "Cole" "c@x" "s3cret" 9 oidT).2 (by decide)).1,
   ((register_email_uniqueness dbW "Cy" "Cole" "c@x" "s3cret" 9 oidT).2 (by decide)).2⟩

/-- C7: a successful task creation appends exactly one task document with
`is_completed = 0` and `assigned_by` equal to the authenticated caller,
whatever `is_completed` or `assigned_by` values the request body may have
carried (the body fields `f5`, `f6` below are unconstrained). -/
theorem create_task_initial_fields (db : DB) (cu : String)
    (d : TaskCreateData) (au dt tm ms : String) (now : Nat) (newId : String)
    (u : UserDoc)
    (hau : d.assigned_user = some au) (hdt : d.task_date = some dt)
    (htm : d.task_time = some tm) (hms : d.task_msg = some ms)
    (hv : isValidObjectId au = true)
    (hfind : (db.users.find? fun v => v._id == au) = some u) :
    create_task db cu d now newId =
      ((201, "Task created", some newId),
       { db with tasks := db.tasks ++
          [{ _id := newId, assigned_by := cu, assigned_user := au
             task_date := dt, task_time := tm, task_msg := ms
             is_completed := 0, created_at := now, updated_at := none }] }) := by
  obtain ⟨f1, f2, f3, f4, f5, f6⟩ := d
  cases hau; cases hdt; cases htm; cases hms
  simp [create_task, ObjectId.parse, hv, hfind]

/-- Instantiation of `create_task_initial_fields`: even though the request
body carries `is_completed = 7` and a foreign `assigned_by`, the created
task stores `is_completed = 0` and the caller as `assigned_by`. -/
theorem create_task_initial_fields_witness :
    create_task dbW oidA
      ⟨some oidB, some "2024-02-02", some "11:00", some "do", some 7, some oidB⟩ 3 oidT =
      ((201, "Task created", some oidT),
       { dbW with tasks := dbW.tasks ++
          [{ _id := oidT, assigned_by := oidA, assigned_user := oidB
             task_date := "2024-02-02", task_time := "11:00", task_msg := "do"
             is_completed := 0, created_at := 3, updated_at := none }] }) :=
  create_task_initial_fields dbW oidA _ oidB "2024-02-02" "11:00" "do" 3 oidT
    userB rfl rfl rfl rfl (by decide) (by decide)

/-- C10: a task creation with all four required fields but a malformed
`assigned_user` id is answered by the generic exception path: 500 with the
raw `InvalidId` error text, not the 404 unknown-assignee answer and not a
400 validation answer; the store is unchanged. -/
theorem create_task_invalid_assignee_oid (db : DB) (cu : String)
    (d : TaskCreateData) (au dt tm ms : String) (now : Nat) (newId : String)
    (hau : d.assigned_user = some au) (hdt : d.task_date = some dt)
    (htm : d.task_time = some tm) (hms : d.task_msg = some ms)
    (hv : isValidObjectId au = false) :
    create_task db cu d now newId = ((500, invalidOidMessage au, none), db) := by
  obtain ⟨f1, f2, f3, f4, f5, f6⟩ := d
  cases hau; cases hdt; cases htm; cases hms
  simp [create_task, ObjectId.parse, hv]

/-- Instantiation of `create_task_invalid_assignee_oid`: the 12-character
value "not-valid-id" is not a well-formed id, so the creation answers 500
with the raw error text. -/
theorem create_task_invalid_assignee_oid_witness :
    create_task dbW oidA
      ⟨some "not-valid-id", some "2024-01-01", some "10:00", some "m", none, none⟩ 7 oidT =
      ((500, invalidOidMessage "not-valid-id", none), dbW) :=
  create_task_invalid_assignee_oid dbW oidA _ "not-valid-id" "2024-01-01" "10:00" "m" 7 oidT
    rfl rfl rfl rfl (by decide)

/-- C8: for a well-formed caller identity, the `/team` answer is exactly
the stored users whose id differs from the caller id (a user is in the
answer precisely when it is stored with a different id), and in particular
the caller id never appears in it. -/
theorem get_users_excludes_caller (db : DB) (cu : String)
    (hv : isValidObjectId cu = true) :
    get_users db cu = .users (db.users.filter fun u => u._id != cu)
    ∧ (∀ u, u ∈ db.users.filter (fun u => u._id != cu) ↔ u ∈ db.users ∧ u._id ≠ cu)
    ∧ ∀ u ∈ db.users.filter (fun u => u._id != cu), u._id ≠ cu := by
  refine ⟨by simp [get_users, ObjectId.parse, hv], fun u => ?_, fun u hu => ?_⟩
  · rw [List.mem_filter]
    simp
  · have h2 := (List.mem_filter.mp hu).2
    simpa using h2

/-- Instantiation of `get_users_excludes_caller`: with caller `userA`, the
fixture `/team` answer is exactly `[userB]`. -/
theorem get_users_excludes_caller_witness :
    get_users dbW oidA = .users (dbW.users.filter fun u => u._id != oidA)
    ∧ (∀ u, u ∈ dbW.users.filter (fun u => u._id != oidA) ↔ u ∈ dbW.users ∧ u._id ≠ oidA)
    ∧ ∀ u ∈ dbW.users.filter (fun u => u._id != oidA), u._id ≠ oidA :=
  get_users_excludes_caller dbW oidA (by decide)

/-- C9: each entry of the `/team` answer is one of the stored user
documents returned whole, its stored `email` and `password` hash fields
included verbatim (ids are already carried in string form in the model, so
the serialization step of the code is the identity here). -/
theorem get_users_returns_full_documents (db : DB) (cu : String)
    (hv : isValidObjectId cu = true) :
    ∃ us, get_users db cu = .users us ∧
      ∀ u ∈ us, ∃ v ∈ db.users, u = v ∧ u.email = v.email ∧ u.password = v.password := by
  refine ⟨db.users.filter fun u => u._id != cu, by simp [get_users, ObjectId.parse, hv],
    fun u hu => ⟨u, List.mem_of_mem_filter hu, rfl, rfl, rfl⟩⟩

/-- Instantiation of `get_users_returns_full_documents` on the fixture
store with caller `userA`. -/
theorem get_users_returns_full_documents_witness :
    ∃ us, get_users dbW oidA = .users us ∧
      ∀ u ∈ us, ∃ v ∈ dbW.users, u = v ∧ u.email = v.email ∧ u.password = v.password :=
  get_users_returns_full_documents dbW oidA (by decide)

/-- C1: for a template whose id occurs once in the collection and whose
owner is A, any caller B distinct from A gets 404 from GET, PUT and DELETE
on that id with the database unchanged, while A gets the document from
GET, a 200 from a PUT whose write changes the document (the stored
`updated_at` differs from the write time, which holds in particular for
every template never updated before), and a 200 from DELETE. -/
theorem template_ownership_isolation (db : DB) (A B : String)
    (pre post : List TemplateDoc) (t : TemplateDoc)
    (tn sj bd : String) (now : Nat)
    (hsplit : db.templates = pre ++ t :: post)
    (hpre : ∀ z ∈ pre, z._id ≠ t._id)
    (hpost : ∀ z ∈ post, z._id ≠ t._id)
    (howner : t.user_id = A)
    (hBA : B ≠ A)
    (hv : isValidObjectId t._id = true) :
    template_operations db B t._id .GET none now = (.msg 404 "Template not found", db)
    ∧ template_operations db B t._id .PUT (some ⟨some tn, some sj, some bd⟩) now
        = (.msg 404 "Template not found", db)
    ∧ template_operations db B t._id .DELETE none now = (.msg 404 "Template not found", db)
    ∧ template_operations db A t._id .GET none now = (.doc t, db)
    ∧ (t.updated_at ≠ some now →
        template_operations db A t._id .PUT (some ⟨some tn, some sj, some bd⟩) now
          = (.msg 200 "Template updated successfully",
             { db with templates := pre ++
                { t with template_name := tn, subject := sj, body := bd
                         updated_at := some now } :: post }))
    ∧ template_operations db A t._id .DELETE none now
        = (.msg 200 "Template deleted successfully", { db with templates := pre ++ post }) := by
  have hparse : ObjectId.parse t._id = some t._id := by simp [ObjectId.parse, hv]
  have hallB : ∀ z ∈ db.templates, (z._id == t._id && z.user_id == B) = false := by
    intro z hz
    rw [hsplit] at hz
    rcases List.mem_append.mp hz with hzp | hzc
    · simp [hpre z hzp]
    · rcases List.mem_cons.mp hzc with rfl | hzp
      · have hzb : z.user_id ≠ B := by rw [howner]; exact fun h => hBA h.symm
        simp [hzb]
      · simp [hpost z hzp]
  have hpreA : ∀ z ∈ pre, (z._id == t._id && z.user_id == A) = false := by
    intro z hz
    simp [hpre z hz]
  have htA : (t._id == t._id && t.user_id == A) = true := by simp [howner]
  refine ⟨?_, ?_, ?_, ?_, fun hnow => ?_, ?_⟩
  · have hfB : (db.templates.find? fun z => z._id == t._id && z.user_id == B) = none :=
      find?_eq_none_of_all _ _ hallB
    simp [template_operations, hparse, hfB]
  · have huB := updateOne_of_all (fun z : TemplateDoc => z._id == t._id && z.user_id == B)
      (fun z => { z with template_name := tn, subject := sj, body := bd
                         updated_at := some now })
      db.templates hallB
    simp [template_operations, hparse, huB]
  · have hdB := deleteOne_of_all (fun z : TemplateDoc => z._id == t._id && z.user_id == B)
      db.templates hallB
    simp [template_operations, hparse, hdB]
  · have hfA : (db.templates.find? fun z => z._id == t._id && z.user_id == A) = some t := by
      rw [hsplit]
      exact find?_of_decomp _ pre post t hpreA htA
    simp [template_operations, hparse, hfA]
  · have huA := updateOne_of_decomp (fun z : TemplateDoc => z._id == t._id && z.user_id == A)
      (fun z => { z with template_name := tn, subject := sj, body := bd
                         updated_at := some now })
      pre post t hpreA htA
    have hne : ({ t with template_name := tn, subject := sj, body := bd
                         updated_at := some now } : TemplateDoc) ≠ t := by
      intro h
      exact hnow (by rw [← h])
    simp [template_operations, hparse, hsplit, huA, hne]
  · have hdA := deleteOne_of_decomp (fun z : TemplateDoc => z._id == t._id && z.user_id == A)
      pre post t hpreA htA
    simp [template_operations, hparse, hsplit, hdA]

/-- Instantiation of `template_ownership_isolation` on the fixture store:
the template of `userA` is invisible and immutable to `userB` and fully
operable by `userA`. -/
theorem template_ownership_isolation_witness :
    template_operations dbW oidB tplT._id .GET none 1 = (.msg 404 "Template not found", dbW)
    ∧ template_operations dbW oidB tplT._id .PUT (some ⟨some "n2", some "s2", some "b2"⟩) 1
        = (.msg 404 "Template not found", dbW)
    ∧ template_operations dbW oidB tplT._id .DELETE none 1 = (.msg 404 "Template not found", dbW)
    ∧ template_operations dbW oidA tplT._id .GET none 1 = (.doc tplT, dbW)
    ∧ template_operations dbW oidA tplT._id .PUT (some ⟨some "n2", some "s2", some "b2"⟩) 1
        = (.msg 200 "Template updated successfully",
           { dbW with templates :=
              [{ tplT with template_name := "n2", subject := "s2", body := "b2"
                           updated_at := some 1 }] })
    ∧ template_operations dbW oidA tplT._id .DELETE none 1
        = (.msg 200 "Template deleted successfully", { dbW with templates := [] }) :=
  have h := template_ownership_isolation dbW oidA oidB [] [] tplT "n2" "s2" "b2" 1
    rfl (by decide) (by decide) rfl (by decide) (by decide)
  ⟨h.1, h.2.1, h.2.2.1, h.2.2.2.1, h.2.2.2.2.1 (by decide), h.2.2.2.2.2⟩

/-- C6: a successful task PUT by the assignee rewrites exactly the targeted
task, changing only its `is_completed` and `updated_at` fields; every
other task keeps its position and value, and the users and templates
collections are untouched. The new `is_completed` is an arbitrary integer
`ic` — nothing restricts it to zero or one. -/
theorem task_put_frame (db : DB) (cu : String)
    (pre post : List TaskDoc) (t : TaskDoc) (ic : Int) (now : Nat)
    (byUser toUser : UserDoc)
    (hsplit : db.tasks = pre ++ t :: post)
    (hpre : ∀ z ∈ pre, (z._id == t._id && z.assigned_user == cu) = false)
    (hass : t.assigned_user = cu)
    (hv : isValidObjectId t._id = true)
    (hmod : ic ≠ t.is_completed ∨ t.updated_at ≠ some now)
    (hvby : isValidObjectId t.assigned_by = true)
    (hvcu : isValidObjectId cu = true)
    (hby : (db.users.find? fun u => u._id == t.assigned_by) = some byUser)
    (hto : (db.users.find? fun u => u._id == cu) = some toUser) :
    task_operations db cu t._id .PUT (some ⟨some ic⟩) now =
      (.notif 200 "Task updated successfully" ("Task completed by " ++ displayName toUser),
       { db with tasks := pre ++ { t with is_completed := ic, updated_at := some now } :: post }) := by
  have hparse : ObjectId.parse t._id = some t._id := by simp [ObjectId.parse, hv]
  have hparseBy : ObjectId.parse t.assigned_by = some t.assigned_by := by
    simp [ObjectId.parse, hvby]
  have hparseCu : ObjectId.parse cu = some cu := by simp [ObjectId.parse, hvcu]
  have htK : (t._id == t._id && t.assigned_user == cu) = true := by simp [hass]
  have hfK : (db.tasks.find? fun z => z._id == t._id && z.assigned_user == cu) = some t := by
    rw [hsplit]
    exact find?_of_decomp _ pre post t hpre htK
  have huK := updateOne_of_decomp (fun z : TaskDoc => z._id == t._id && z.assigned_user == cu)
    (fun z => { z with is_completed := ic, updated_at := some now })
    pre post t hpre htK
  have hne : ({ t with is_completed := ic, updated_at := some now } : TaskDoc) ≠ t := by
    intro h
    rcases hmod with h1 | h2
    · exact h1 (by rw [← h])
    · exact h2 (by rw [← h])
  have hparseAss : ObjectId.parse t.assigned_user = some t.assigned_user := by
    rw [hass]; exact hparseCu
  have htoAss : (db.users.find? fun u => u._id == t.assigned_user) = some toUser := by
    rw [hass]; exact hto
  have huK2 : updateOne (fun z : TaskDoc => z._id == t._id && z.assigned_user == cu)
      (fun z => { z with is_completed := ic, updated_at := some now }) db.tasks
      = (pre ++ { t with is_completed := ic, updated_at := some now } :: post, 1,
         if ({ t with is_completed := ic, updated_at := some now } : TaskDoc) = t then 0 else 1) := by
    rw [hsplit]; exact huK
  simp [task_operations, hparse, hfK, huK2, hne, hparseBy, hparseAss, hby, htoAss]

/-- Instantiation of `task_put_frame`: assignee `userB` setting
`is_completed` of the fixture task to 7 succeeds, returns the notification
naming `userB`, and rewrites only the two fields of that task. -/
theorem task_put_frame_witness :
    task_operations dbW oidB taskK._id .PUT (some ⟨some 7⟩) 1 =
      (.notif 200 "Task updated successfully" ("Task completed by " ++ displayName userB),
       { dbW with tasks := [{ taskK with is_completed := 7, updated_at := some 1 }] }) :=
  task_put_frame dbW oidB [] [] taskK 7 1 userA userB
    rfl (by decide) rfl (by decide) (by decide) (by decide) (by decide) (by decide) (by decide)

/-- Writing back a template with its own three field values changes the
document exactly when it also refreshes `updated_at`, so the written
document equals the old one precisely when the stored `updated_at` already
equals the write time. -/
theorem tplSet_eq_self_iff (t : TemplateDoc) (now : Nat) :
    ({ t with template_name := t.template_name, subject := t.subject, body := t.body
              updated_at := some now } : TemplateDoc) = t ↔ t.updated_at = some now := by
  cases t
  simp [TemplateDoc.mk.injEq, eq_comm]

/-- Writing back a task with its own `is_completed` value changes the
document exactly when it also refreshes `updated_at`. -/
theorem taskSet_eq_self_iff (k : TaskDoc) (now : Nat) :
    ({ k with is_completed := k.is_completed, updated_at := some now } : TaskDoc) = k ↔
      k.updated_at = some now := by
  cases k
  simp [TaskDoc.mk.injEq, eq_comm]

/-- C2 counterexample: in the fixture store, the owner writing back the
exact stored field values of the template at time 1 (the template was
never updated, so its stored `updated_at` differs) is answered 200, not
404; likewise the assignee repeating the stored `is_completed = 1` of the
task at time 1 (stored `updated_at` is 0) is answered 200 with a
notification, not 404: the `$set` also rewrites `updated_at`, so the write
does modify the document. -/
theorem noop_update_counterexample :
    (template_operations dbW oidA oidT .PUT (some ⟨some "n", some "s", some "b"⟩) 1).1
      = .msg 200 "Template updated successfully"
    ∧ (template_operations dbW oidA oidT .PUT (some ⟨some "n", some "s", some "b"⟩) 1).1
      ≠ .msg 404 "Template not found"
    ∧ (task_operations dbW oidB oidK .PUT (some ⟨some 1⟩) 1).1
      = .notif 200 "Task updated successfully" "Task completed by Bob Blake"
    ∧ (task_operations dbW oidB oidK .PUT (some ⟨some 1⟩) 1).1
      ≠ .msg 404 "Task not found" := by
  refine ⟨by decide, by decide, by decide, by decide⟩

/-- C2 (amended): an identical-field update is answered 404 exactly when
the whole `$set`, the refreshed `updated_at` included, changes nothing: a
template PUT repeating the three stored values, resp. a task PUT repeating
the stored `is_completed`, is 404 precisely when the stored `updated_at`
already equals the write time, and is answered 200 otherwise. -/
theorem noop_update_timestamp_condition (db : DB) (cuT cuK : String)
    (preT postT : List TemplateDoc) (t : TemplateDoc)
    (preK postK : List TaskDoc) (k : TaskDoc)
    (now : Nat) (byUser toUser : UserDoc)
    (hsplitT : db.templates = preT ++ t :: postT)
    (hpreT : ∀ z ∈ preT, (z._id == t._id && z.user_id == cuT) = false)
    (hownT : t.user_id = cuT)
    (hvT : isValidObjectId t._id = true)
    (hsplitK : db.tasks = preK ++ k :: postK)
    (hpreK : ∀ z ∈ preK, (z._id == k._id && z.assigned_user == cuK) = false)
    (hassK : k.assigned_user = cuK)
    (hvK : isValidObjectId k._id = true)
    (hvby : isValidObjectId k.assigned_by = true)
    (hvcu : isValidObjectId cuK = true)
    (hby : (db.users.find? fun u => u._id == k.assigned_by) = some byUser)
    (hto : (db.users.find? fun u => u._id == cuK) = some toUser) :
    ((template_operations db cuT t._id .PUT
        (some ⟨some t.template_name, some t.subject, some t.body⟩) now).1
      = .msg 404 "Template not found" ↔ t.updated_at = some now)
    ∧ ((task_operations db cuK k._id .PUT (some ⟨some k.is_completed⟩) now).1
      = .msg 404 "Task not found" ↔ k.updated_at = some now) := by
  have hparseT : ObjectId.parse t._id = some t._id := by simp [ObjectId.parse, hvT]
  have htT : (t._id == t._id && t.user_id == cuT) = true := by simp [hownT]
  have huT := updateOne_of_decomp (fun z : TemplateDoc => z._id == t._id && z.user_id == cuT)
    (fun z => { z with template_name := t.template_name, subject := t.subject
                       body := t.body, updated_at := some now })
    preT postT t hpreT htT
  have huT2 : updateOne (fun z : TemplateDoc => z._id == t._id && z.user_id == cuT)
      (fun z => { z with template_name := t.template_name, subject := t.subject
                         body := t.body, updated_at := some now }) db.templates
      = (preT ++ { t with template_name := t.template_name, subject := t.subject
                          body := t.body, updated_at := some now } :: postT, 1,
         if ({ t with template_name := t.template_name, subject := t.subject
                      body := t.body, updated_at := some now } : TemplateDoc) = t
         then 0 else 1) := by
    rw [hsplitT]; exact huT
  have hparseK : ObjectId.parse k._id = some k._id := by simp [ObjectId.parse, hvK]
  have htK : (k._id == k._id && k.assigned_user == cuK) = true := by simp [hassK]
  have hfK : (db.tasks.find? fun z => z._id == k._id && z.assigned_user == cuK) = some k := by
    rw [hsplitK]
    exact find?_of_decomp _ preK postK k hpreK htK
  have huK := updateOne_of_decomp (fun z : TaskDoc => z._id == k._id && z.assigned_user == cuK)
    (fun z => { z with is_completed := k.is_completed, updated_at := some now })
    preK postK k hpreK htK
  have huK2 : updateOne (fun z : TaskDoc => z._id == k._id && z.assigned_user == cuK)
      (fun z => { z with is_completed := k.is_completed, updated_at := some now }) db.tasks
      = (preK ++ { k with is_completed := k.is_completed, updated_at := some now } :: postK, 1,
         if ({ k with is_completed := k.is_completed, updated_at := some now } : TaskDoc) = k
         then 0 else 1) := by
    rw [hsplitK]; exact huK
  have hparseBy : ObjectId.parse k.assigned_by = some k.assigned_by := by
    simp [ObjectId.parse, hvby]
  have hparseAss : ObjectId.parse k.assigned_user = some k.assigned_user := by
    rw [hassK]; simp [ObjectId.parse, hvcu]
  have htoAss : (db.users.find? fun u => u._id == k.assigned_user) = some toUser := by
    rw [hassK]; exact hto
  constructor
  · rcases eq_or_ne t.updated_at (some now) with hcase | hcase
    · have hEq := (tplSet_eq_self_iff t now).mpr hcase
      simp [template_operations, hparseT, huT2, hEq, hcase]
    · have hNe : ({ t with template_name := t.template_name, subject := t.subject,
                           body := t.body, updated_at := some now } : TemplateDoc) ≠ t :=
        fun h => hcase ((tplSet_eq_self_iff t now).mp h)
      simp [template_operations, hparseT, huT2, hNe, hcase]
  · rcases eq_or_ne k.updated_at (some now) with hcase | hcase
    · have hEq := (taskSet_eq_self_iff k now).mpr hcase
      simp [task_operations, hparseK, hfK, huK2, hEq, hcase]
    · have hNe : ({ k with is_completed := k.is_completed, updated_at := some now } : TaskDoc) ≠ k :=
        fun h => hcase ((taskSet_eq_self_iff k now).mp h)
      simp [task_operations, hparseK, hfK, huK2, hNe, hcase, hparseBy, hparseAss, hby, htoAss]

/-- Instantiation of `noop_update_timestamp_condition` on the fixture
store at write time 0: the never-updated template gives a 404-condition
equivalent to the false `none = some 0`, while the task, last updated at
time 0, gives a 404-condition equivalent to the true `some 0 = some 0`. -/
theorem noop_update_timestamp_condition_witness :
    ((template_operations dbW oidA tplT._id .PUT
        (some ⟨some tplT.template_name, some tplT.subject, some tplT.body⟩) 0).1
      = .msg 404 "Template not found" ↔ tplT.updated_at = some 0)
    ∧ ((task_operations dbW oidB taskK._id .PUT (some ⟨some taskK.is_completed⟩) 0).1
      = .msg 404 "Task not found" ↔ taskK.updated_at = some 0) :=
  noop_update_timestamp_condition dbW oidA oidB [] [] tplT [] [] taskK 0 userA userB
    rfl (by decide) rfl (by decide) rfl (by decide) rfl (by decide)
    (by decide) (by decide) (by decide) (by decide)

end App
